import Mathlib

/-!
# Verification of the nidx national-ID decode engine (Albania module)

The repository exposes a per-country decode/validate engine through a thin
Python binding (`nidx/__init__.py` re-exports `albania`, `kosovo`, `NidInfo`
and the error classes from the compiled `_nidx` core).  The core engine
itself is not among the binding sources, so its pipeline is modelled here
from the design document (shape table, field extraction, checksum, date
reconstruction) and pinned to the repository's own test vectors.

A code is modelled as the list of the Unicode code points of its characters
(`List Nat`); `str` converts a Lean string literal into this form.
-/

/-- The list of Unicode code points of a string: the model of a Python `str`
argument to `decode`/`is_valid`. -/
def str (s : String) : List Nat := s.data.map Char.toNat

/-- Modelled from the spec: the error taxonomy of §3 — the `_nidx` core that
defines the error classes is not among the binding sources.  A tagged
variant with exactly the three kinds FormatError / ChecksumError /
InvalidDateError. -/
inductive NidError where
  | formatError
  | checksumError
  | invalidDateError
deriving DecidableEq

/-- Modelled from the spec: the immutable decoded record of §3, produced only
by a successful decode (the `_nidx` core defining the `NidInfo` class is not
among the binding sources). -/
structure NidInfo where
  country : String
  year : Nat
  month : Nat
  day : Nat
  birthday : String
  sex : String
  is_national : Bool
deriving DecidableEq

/-- ASCII uppercase on a code point: the per-character uppercase
normalisation the pipeline applies first. -/
def upperChar (c : Nat) : Nat :=
  if 97 ≤ c ∧ c ≤ 122 then c - 32 else c

/-- ASCII lowercase on a code point, used to state case-invariance. -/
def lowerChar (c : Nat) : Nat :=
  if 65 ≤ c ∧ c ≤ 90 then c + 32 else c

/-- Is the code point an uppercase ASCII letter `A`-`Z`? -/
def isUpperLetter (c : Nat) : Bool := decide (65 ≤ c ∧ c ≤ 90)

/-- Is the code point an ASCII digit `0`-`9`? -/
def isDigit (c : Nat) : Bool := decide (48 ≤ c ∧ c ≤ 57)

/-- Numeric value of an ASCII digit code point. -/
def digitVal (c : Nat) : Nat := c - 48

/-- Index of an uppercase letter code point in the alphabet (`A` = 0). -/
def letterIdx (c : Nat) : Nat := c - 65

/-- Is a leap year (Gregorian rule). -/
def isLeapYear (y : Nat) : Bool :=
  decide ((y % 4 = 0 ∧ y % 100 ≠ 0) ∨ y % 400 = 0)

/-- Days in a month, leap-year aware. -/
def daysInMonth (y m : Nat) : Nat :=
  if m = 2 then (if isLeapYear y then 29 else 28)
  else if m = 4 ∨ m = 6 ∨ m = 9 ∨ m = 11 then 30
  else 31

/-- Zero-padded two-digit rendering of a number below 100. -/
def pad2 (n : Nat) : String :=
  if n < 10 then "0" ++ toString n else toString n

/-- `YYYY-MM-DD` rendering of a date, month and day zero-padded. -/
def formatDate (y m d : Nat) : String :=
  toString y ++ "-" ++ pad2 m ++ "-" ++ pad2 d

namespace albania

/-- Identifier of this country module, the `country` field of its records. -/
def countryName : String := "albania"

/-- Modelled from the spec: the Albania format table of §4.1 (the `_nidx`
core is not among the binding sources) — length 10, a letter in position 0
(decade indicator), digits in positions 1-8, a letter in position 9 (the
check character), evaluated on the uppercased code. -/
def shapeOk (c0 c1 c2 c3 c4 c5 c6 c7 c8 c9 : Nat) : Bool :=
  isUpperLetter c0 && isDigit c1 && isDigit c2 && isDigit c3 && isDigit c4 &&
  isDigit c5 && isDigit c6 && isDigit c7 && isDigit c8 && isUpperLetter c9

/-- Modelled from the spec: the Albania checksum of §4.3 (the `_nidx` core
is not among the binding sources) — positional weights applied to the
decade-letter index and the eight digit values, reduced modulo the check
alphabet size 23.  The weight table is the normative per-country constant;
it is pinned by the four valid test vectors of the repository's test suite. -/
def checkSum (c0 c1 c2 c3 c4 c5 c6 c7 c8 : Nat) : Nat :=
  letterIdx c0 * 1 + digitVal c1 * 1 + digitVal c2 * 2 + digitVal c3 * 3 +
  digitVal c4 * 4 + digitVal c5 * 5 + digitVal c6 * 6 + digitVal c7 * 7 +
  digitVal c8 * 8

/-- The expected check character (as a code point): the weighted sum reduced
mod 23 and mapped into the letters from `A`. -/
def expectedCheck (c0 c1 c2 c3 c4 c5 c6 c7 c8 : Nat) : Nat :=
  65 + checkSum c0 c1 c2 c3 c4 c5 c6 c7 c8 % 23

/-- Modelled from the spec: the Albania composite-month bands of §4.4 (the
`_nidx` core is not among the binding sources) — the field's value `v`
simultaneously encodes month, sex and residency: national male 1-12,
foreign male 31-42, national female 51-62, foreign female 81-92, the month
being `v` minus the band's base.  Values in no band are an impossible
month. -/
def monthBand (v : Nat) : Option (Nat × String × Bool) :=
  if 1 ≤ v ∧ v ≤ 12 then some (v, "M", true)
  else if 31 ≤ v ∧ v ≤ 42 then some (v - 30, "M", false)
  else if 51 ≤ v ∧ v ≤ 62 then some (v - 50, "F", true)
  else if 81 ≤ v ∧ v ≤ 92 then some (v - 80, "F", false)
  else none

/-- The composite month field of an uppercased code: the two-digit value at
positions 2-3 (field extraction, §4.2). -/
def compositeField (u : List Nat) : Nat :=
  10 * digitVal (u.getD 2 0) + digitVal (u.getD 3 0)

/-- Modelled from the spec: the decode pipeline of §4.5 on an
already-uppercased code — shape check, then checksum, then date
reconstruction (decade letter + year digit give the year, composite field
gives month/sex/residency, day digits give the day, calendar legality is
checked), each failure short-circuiting with its specific error kind. -/
def decodeUpper (u : List Nat) : Except NidError NidInfo :=
  match u with
  | [c0, c1, c2, c3, c4, c5, c6, c7, c8, c9] =>
    if shapeOk c0 c1 c2 c3 c4 c5 c6 c7 c8 c9 then
      if c9 = expectedCheck c0 c1 c2 c3 c4 c5 c6 c7 c8 then
        match monthBand (10 * digitVal c2 + digitVal c3) with
        | some (m, sex, national) =>
          if 1 ≤ 10 * digitVal c4 + digitVal c5 ∧
             10 * digitVal c4 + digitVal c5 ≤
               daysInMonth (1900 + 10 * letterIdx c0 + digitVal c1) m then
            .ok ⟨countryName, 1900 + 10 * letterIdx c0 + digitVal c1, m,
                 10 * digitVal c4 + digitVal c5,
                 formatDate (1900 + 10 * letterIdx c0 + digitVal c1) m
                   (10 * digitVal c4 + digitVal c5),
                 sex, national⟩
          else .error .invalidDateError
        | none => .error .invalidDateError
      else .error .checksumError
    else .error .formatError
  | _ => .error .formatError

/-- Modelled from the spec: `albania.decode` — uppercase-normalise, then run
the pipeline. -/
def decode (code : List Nat) : Except NidError NidInfo :=
  decodeUpper (code.map upperChar)

/-- Modelled from the spec: the boolean validity check on an uppercased
code, as its own pass over the same shape/checksum/date conditions; claim
C1 proves it coincides with `decode` succeeding. -/
def validUpper (u : List Nat) : Bool :=
  match u with
  | [c0, c1, c2, c3, c4, c5, c6, c7, c8, c9] =>
    shapeOk c0 c1 c2 c3 c4 c5 c6 c7 c8 c9 &&
    decide (c9 = expectedCheck c0 c1 c2 c3 c4 c5 c6 c7 c8) &&
    (match monthBand (10 * digitVal c2 + digitVal c3) with
     | some (m, _, _) =>
       decide (1 ≤ 10 * digitVal c4 + digitVal c5 ∧
               10 * digitVal c4 + digitVal c5 ≤
                 daysInMonth (1900 + 10 * letterIdx c0 + digitVal c1) m)
     | none => false)
  | _ => false

/-- Modelled from the spec: `albania.is_valid` — a boolean, raising
nothing. -/
def is_valid (code : List Nat) : Bool :=
  validUpper (code.map upperChar)

end albania

instance {ε α : Type} [DecidableEq ε] [DecidableEq α] :
    DecidableEq (Except ε α) := fun a b =>
  match a, b with
  | .ok x, .ok y =>
    if h : x = y then .isTrue (by rw [h]) else .isFalse (by simp [h])
  | .error e, .error f =>
    if h : e = f then .isTrue (by rw [h]) else .isFalse (by simp [h])
  | .ok _, .error _ => .isFalse (by simp)
  | .error _, .ok _ => .isFalse (by simp)

example : albania.decode (str "J00101999W") =
    .ok ⟨"albania", 1990, 1, 1, "1990-01-01", "M", true⟩ := by decide

/-- Uppercasing is idempotent on code points. -/
theorem upperChar_upperChar (c : Nat) : upperChar (upperChar c) = upperChar c := by
  unfold upperChar
  repeat' split
  all_goals omega

/-- Uppercasing cancels lowercasing on code points. -/
theorem upperChar_lowerChar (c : Nat) : upperChar (lowerChar c) = upperChar c := by
  unfold upperChar lowerChar
  repeat' split
  all_goals omega

namespace albania

/-- Inversion of a successful decode: the uppercased code is an exact
ten-character shape-valid list whose check character matches, whose
composite field falls in a band, whose day is calendar-legal, and the
record's fields are exactly the reconstructed ones. -/
theorem decode_ok_inv (code : List Nat) (info : NidInfo)
    (h : decode code = .ok info) :
    ∃ c0 c1 c2 c3 c4 c5 c6 c7 c8 c9,
      code.map upperChar = [c0, c1, c2, c3, c4, c5, c6, c7, c8, c9] ∧
      shapeOk c0 c1 c2 c3 c4 c5 c6 c7 c8 c9 = true ∧
      c9 = expectedCheck c0 c1 c2 c3 c4 c5 c6 c7 c8 ∧
      ∃ m sex national,
        monthBand (10 * digitVal c2 + digitVal c3) = some (m, sex, national) ∧
        (1 ≤ 10 * digitVal c4 + digitVal c5 ∧
         10 * digitVal c4 + digitVal c5 ≤
           daysInMonth (1900 + 10 * letterIdx c0 + digitVal c1) m) ∧
        info = ⟨countryName, 1900 + 10 * letterIdx c0 + digitVal c1, m,
                10 * digitVal c4 + digitVal c5,
                formatDate (1900 + 10 * letterIdx c0 + digitVal c1) m
                  (10 * digitVal c4 + digitVal c5),
                sex, national⟩ := by
  unfold decode decodeUpper at h
  split at h
  case _ c0 c1 c2 c3 c4 c5 c6 c7 c8 c9 heq =>
    refine ⟨c0, c1, c2, c3, c4, c5, c6, c7, c8, c9, heq, ?_⟩
    split at h
    case isTrue hs =>
      split at h
      case isTrue hc =>
        refine ⟨hs, hc, ?_⟩
        split at h
        case _ m sex national hm =>
          split at h
          case isTrue hd =>
            exact ⟨m, sex, national, hm, hd, (Except.ok.inj h).symm⟩
          case isFalse => exact absurd h (by simp)
        case _ => exact absurd h (by simp)
      case isFalse => exact absurd h (by simp)
    case isFalse => exact absurd h (by simp)
  case _ => exact absurd h (by simp)

/-- A code whose uppercased form is not exactly ten characters long decodes
to a format error. -/
theorem decode_wrong_length (code : List Nat) (h : code.length ≠ 10) :
    decode code = .error .formatError := by
  unfold decode decodeUpper
  split
  case _ c0 c1 c2 c3 c4 c5 c6 c7 c8 c9 heq =>
    exact absurd (by simpa using congrArg List.length heq) h
  case _ => rfl

/-- The boolean validity pass agrees with the decode pipeline succeeding,
stage by stage. -/
theorem validUpper_eq_isOk (u : List Nat) :
    validUpper u = (decodeUpper u).isOk := by
  unfold validUpper decodeUpper
  split
  case _ c0 c1 c2 c3 c4 c5 c6 c7 c8 c9 =>
    cases hs : shapeOk c0 c1 c2 c3 c4 c5 c6 c7 c8 c9
    · simp [hs, Except.isOk, Except.toBool]
    · by_cases hc : c9 = expectedCheck c0 c1 c2 c3 c4 c5 c6 c7 c8
      · cases hm : monthBand (10 * digitVal c2 + digitVal c3) with
        | none => simp [hs, hc, hm, Except.isOk, Except.toBool]
        | some x =>
          obtain ⟨m, sex, national⟩ := x
          by_cases hd : 1 ≤ 10 * digitVal c4 + digitVal c5 ∧
              10 * digitVal c4 + digitVal c5 ≤
                daysInMonth (1900 + 10 * letterIdx c0 + digitVal c1) m
          · simp [hs, hc, hm, hd, Except.isOk, Except.toBool]
          · simp [hs, hc, hm, hd, Except.isOk, Except.toBool]
      · simp [hs, hc, Except.isOk, Except.toBool]
  case _ => rfl

end albania

/-- C1: for every input, `albania.is_valid` returns exactly whether
`albania.decode` succeeds — the boolean validity pass and the decode
pipeline agree on all inputs. -/
theorem C1_is_valid_eq_decode_isOk (code : List Nat) :
    albania.is_valid code = (albania.decode code).isOk :=
  albania.validUpper_eq_isOk (code.map upperChar)

/-- C2: decoding the valid code `"J00101999W"` succeeds and yields the
record with year 1990, month 1, day 1, sex `"M"`, `is_national` true,
birthday `"1990-01-01"`, and country `"albania"`. -/
theorem C2_decode_J00101999W :
    albania.decode (str "J00101999W") =
      .ok ⟨"albania", 1990, 1, 1, "1990-01-01", "M", true⟩ := by decide

/-- A month delivered by a band lies in the calendar range 1-12. -/
theorem monthBand_month_bounds (v m : Nat) (sex : String) (national : Bool)
    (h : albania.monthBand v = some (m, sex, national)) :
    1 ≤ m ∧ m ≤ 12 := by
  unfold albania.monthBand at h
  repeat' split at h
  all_goals simp only [Option.some.injEq, Prod.mk.injEq,
    reduceCtorEq] at h
  all_goals obtain ⟨h1, -, -⟩ := h
  all_goals omega

/-- C3 counterexample: on the code `"J03101999F"` the composite month field
has value 31, and decode recovers month 1, not `31 % 12 = 7` (nor 12, the
claimed image of residue 0) — the claimed `v mod 12` month rule fails. -/
theorem C3_counterexample_mod12 :
    albania.compositeField ((str "J03101999F").map upperChar) = 31 ∧
    (albania.decode (str "J03101999F")).map NidInfo.month = .ok 1 ∧
    31 % 12 = 7 ∧ (1 : Nat) ≠ 7 ∧ (1 : Nat) ≠ 12 := by decide

/-- C3 (amended): for every code that decodes successfully, the month is the
composite field's value minus its band's base offset (0 for national male
1-12, 30 for foreign male 31-42, 50 for national female 51-62, 80 for
foreign female 81-92), with sex and residency given by the band; in
particular composite value 31 (code `"J03101999F"`) decodes to month 1,
sex `"M"`, `is_national` false. -/
theorem C3_month_from_band :
    (∀ (code : List Nat) (info : NidInfo), albania.decode code = .ok info →
      ∃ v, albania.compositeField (code.map upperChar) = v ∧
        ((1 ≤ v ∧ v ≤ 12 ∧ info.month = v ∧ info.sex = "M" ∧
            info.is_national = true) ∨
         (31 ≤ v ∧ v ≤ 42 ∧ info.month = v - 30 ∧ info.sex = "M" ∧
            info.is_national = false) ∨
         (51 ≤ v ∧ v ≤ 62 ∧ info.month = v - 50 ∧ info.sex = "F" ∧
            info.is_national = true) ∨
         (81 ≤ v ∧ v ≤ 92 ∧ info.month = v - 80 ∧ info.sex = "F" ∧
            info.is_national = false))) ∧
    albania.decode (str "J03101999F") =
      .ok ⟨"albania", 1990, 1, 1, "1990-01-01", "M", false⟩ := by
  constructor
  · intro code info h
    obtain ⟨c0, c1, c2, c3, c4, c5, c6, c7, c8, c9, hmap, hs, hc,
      m, sex, national, hm, hd, hinfo⟩ := albania.decode_ok_inv code info h
    subst hinfo
    refine ⟨10 * digitVal c2 + digitVal c3, by rw [hmap]; rfl, ?_⟩
    unfold albania.monthBand at hm
    repeat' split at hm
    all_goals simp only [Option.some.injEq, Prod.mk.injEq,
      reduceCtorEq] at hm
    all_goals obtain ⟨rfl, rfl, rfl⟩ := hm
    · exact Or.inl ⟨by omega, by omega, rfl, rfl, rfl⟩
    · exact Or.inr (Or.inl ⟨by omega, by omega, rfl, rfl, rfl⟩)
    · exact Or.inr (Or.inr (Or.inl ⟨by omega, by omega, rfl, rfl, rfl⟩))
    · exact Or.inr (Or.inr (Or.inr ⟨by omega, by omega, rfl, rfl, rfl⟩))
  · decide

/-- C3 witness: the amended band rule applied at the concrete foreign-male
code `"J03101999F"`, whose composite field value is 31. -/
theorem C3_month_from_band_witness :
    ∃ v, albania.compositeField ((str "J03101999F").map upperChar) = v ∧
      ((1 ≤ v ∧ v ≤ 12 ∧
          (NidInfo.mk "albania" 1990 1 1 "1990-01-01" "M" false).month = v ∧
          (NidInfo.mk "albania" 1990 1 1 "1990-01-01" "M" false).sex = "M" ∧
          (NidInfo.mk "albania" 1990 1 1 "1990-01-01" "M" false).is_national
            = true) ∨
       (31 ≤ v ∧ v ≤ 42 ∧
          (NidInfo.mk "albania" 1990 1 1 "1990-01-01" "M" false).month
            = v - 30 ∧
          (NidInfo.mk "albania" 1990 1 1 "1990-01-01" "M" false).sex = "M" ∧
          (NidInfo.mk "albania" 1990 1 1 "1990-01-01" "M" false).is_national
            = false) ∨
       (51 ≤ v ∧ v ≤ 62 ∧
          (NidInfo.mk "albania" 1990 1 1 "1990-01-01" "M" false).month
            = v - 50 ∧
          (NidInfo.mk "albania" 1990 1 1 "1990-01-01" "M" false).sex = "F" ∧
          (NidInfo.mk "albania" 1990 1 1 "1990-01-01" "M" false).is_national
            = true) ∨
       (81 ≤ v ∧ v ≤ 92 ∧
          (NidInfo.mk "albania" 1990 1 1 "1990-01-01" "M" false).month
            = v - 80 ∧
          (NidInfo.mk "albania" 1990 1 1 "1990-01-01" "M" false).sex = "F" ∧
          (NidInfo.mk "albania" 1990 1 1 "1990-01-01" "M" false).is_national
            = false)) :=
  C3_month_from_band.1 (str "J03101999F")
    (NidInfo.mk "albania" 1990 1 1 "1990-01-01" "M" false) (by decide)

/-- C7: every successfully decoded record is internally consistent — the
month lies in 1-12, the day is legal for that month and year under the
leap-aware day count, and the birthday string is exactly the zero-padded
`YYYY-MM-DD` rendering of the date fields. -/
theorem C7_nidinfo_consistent (code : List Nat) (info : NidInfo)
    (h : albania.decode code = .ok info) :
    1 ≤ info.month ∧ info.month ≤ 12 ∧
    1 ≤ info.day ∧ info.day ≤ daysInMonth info.year info.month ∧
    info.birthday = formatDate info.year info.month info.day := by
  obtain ⟨c0, c1, c2, c3, c4, c5, c6, c7, c8, c9, hmap, hs, hc,
    m, sex, national, hm, hd, hinfo⟩ := albania.decode_ok_inv code info h
  subst hinfo
  obtain ⟨hm1, hm2⟩ := monthBand_month_bounds _ _ _ _ hm
  exact ⟨hm1, hm2, hd.1, hd.2, rfl⟩

/-- C7 witness: internal consistency evaluated on the record decoded from
`"J00101999W"`. -/
theorem C7_witness :
    1 ≤ (NidInfo.mk "albania" 1990 1 1 "1990-01-01" "M" true).month ∧
    (NidInfo.mk "albania" 1990 1 1 "1990-01-01" "M" true).month ≤ 12 ∧
    1 ≤ (NidInfo.mk "albania" 1990 1 1 "1990-01-01" "M" true).day ∧
    (NidInfo.mk "albania" 1990 1 1 "1990-01-01" "M" true).day ≤
      daysInMonth (NidInfo.mk "albania" 1990 1 1 "1990-01-01" "M" true).year
        (NidInfo.mk "albania" 1990 1 1 "1990-01-01" "M" true).month ∧
    (NidInfo.mk "albania" 1990 1 1 "1990-01-01" "M" true).birthday =
      formatDate (NidInfo.mk "albania" 1990 1 1 "1990-01-01" "M" true).year
        (NidInfo.mk "albania" 1990 1 1 "1990-01-01" "M" true).month
        (NidInfo.mk "albania" 1990 1 1 "1990-01-01" "M" true).day :=
  C7_nidinfo_consistent (str "J00101999W")
    (NidInfo.mk "albania" 1990 1 1 "1990-01-01" "M" true) (by decide)

/-- C4: failure kinds are ordered by pipeline stage — wrong length (so also
the empty string) or a failed shape check always gives FormatError, and a
shape-valid code with a mismatched check character always gives
ChecksumError, whatever its date fields hold (checksum is decided before
calendar legality). -/
theorem C4_error_ordering :
    (∀ code : List Nat, code.length ≠ 10 →
      albania.decode code = .error .formatError) ∧
    (∀ (code : List Nat) (c0 c1 c2 c3 c4 c5 c6 c7 c8 c9 : Nat),
      code.map upperChar = [c0, c1, c2, c3, c4, c5, c6, c7, c8, c9] →
      albania.shapeOk c0 c1 c2 c3 c4 c5 c6 c7 c8 c9 = false →
      albania.decode code = .error .formatError) ∧
    (∀ (code : List Nat) (c0 c1 c2 c3 c4 c5 c6 c7 c8 c9 : Nat),
      code.map upperChar = [c0, c1, c2, c3, c4, c5, c6, c7, c8, c9] →
      albania.shapeOk c0 c1 c2 c3 c4 c5 c6 c7 c8 c9 = true →
      c9 ≠ albania.expectedCheck c0 c1 c2 c3 c4 c5 c6 c7 c8 →
      albania.decode code = .error .checksumError) := by
  refine ⟨albania.decode_wrong_length, ?_, ?_⟩
  · intro code c0 c1 c2 c3 c4 c5 c6 c7 c8 c9 hmap hs
    unfold albania.decode
    rw [hmap]
    simp [albania.decodeUpper, hs]
  · intro code c0 c1 c2 c3 c4 c5 c6 c7 c8 c9 hmap hs hne
    unfold albania.decode
    rw [hmap]
    simp [albania.decodeUpper, hs, hne]

/-- C4 witness: the empty string and `"invalid"` fail with FormatError by
length; `"J09999999A"` is shape-valid with both a wrong check character and
an impossible date (composite field 99, day 99) and fails with
ChecksumError. -/
theorem C4_witness :
    albania.decode (str "") = .error .formatError ∧
    albania.decode (str "invalid") = .error .formatError ∧
    albania.decode (str "J09999999A") = .error .checksumError :=
  ⟨C4_error_ordering.1 (str "") (by decide),
   C4_error_ordering.1 (str "invalid") (by decide),
   C4_error_ordering.2.2 (str "J09999999A") 74 48 57 57 57 57 57 57 57 65
     (by decide) (by decide) (by decide)⟩

/-- C5: replacing the check character of any successfully decoding code by
any other letter of the alphabet makes decode fail with ChecksumError; in
particular `"J00101999A"` fails with ChecksumError. -/
theorem C5_checksum_sensitivity :
    (∀ (code : List Nat) (info : NidInfo) (c : Nat),
      albania.decode code = .ok info →
      isUpperLetter (upperChar c) = true →
      upperChar c ≠ (code.map upperChar).getLastD 0 →
      albania.decode (code.take 9 ++ [c]) = .error .checksumError) ∧
    albania.decode (str "J00101999A") = .error .checksumError := by
  constructor
  · intro code info c hok hcu hne
    obtain ⟨c0, c1, c2, c3, c4, c5, c6, c7, c8, c9, hmap, hs, hc,
      -, -, -, -, -, -⟩ := albania.decode_ok_inv code info hok
    rw [hmap] at hne
    have hne9 : upperChar c ≠ c9 := by simpa [List.getLastD] using hne
    have hmut : (code.take 9 ++ [c]).map upperChar =
        [c0, c1, c2, c3, c4, c5, c6, c7, c8, upperChar c] := by
      rw [List.map_append, List.map_take, hmap]
      rfl
    have hne' : upperChar c ≠ albania.expectedCheck c0 c1 c2 c3 c4 c5 c6 c7 c8 :=
      hc ▸ hne9
    simp only [albania.shapeOk, Bool.and_eq_true] at hs
    have hs' : albania.shapeOk c0 c1 c2 c3 c4 c5 c6 c7 c8 (upperChar c) = true := by
      simp only [albania.shapeOk, Bool.and_eq_true]
      exact ⟨hs.1, hcu⟩
    unfold albania.decode
    rw [hmut]
    simp [albania.decodeUpper, hs', hne']
  · decide

/-- C5 witness: mutating the check character of the valid `"J00101999W"`
into `A` (code point 65) is rejected with ChecksumError. -/
theorem C5_witness :
    albania.decode ((str "J00101999W").take 9 ++ [65]) =
      .error .checksumError :=
  C5_checksum_sensitivity.1 (str "J00101999W")
    (NidInfo.mk "albania" 1990 1 1 "1990-01-01" "M" true) 65
    (by decide) (by decide) (by decide)

/-- C6: a code that decodes successfully decodes to the field-for-field
identical record when submitted all-lowercase or all-uppercase — the
pipeline is case-insensitive throughout. -/
theorem C6_case_invariance (code : List Nat) (info : NidInfo)
    (h : albania.decode code = .ok info) :
    albania.decode (code.map lowerChar) = .ok info ∧
    albania.decode (code.map upperChar) = .ok info := by
  have hf : upperChar ∘ lowerChar = upperChar := funext upperChar_lowerChar
  have hg : upperChar ∘ upperChar = upperChar := funext upperChar_upperChar
  constructor
  · unfold albania.decode
    rw [List.map_map, hf]
    exact h
  · unfold albania.decode
    rw [List.map_map, hg]
    exact h

/-- C6 witness: case invariance evaluated on `"J00101999W"`, i.e. the
lowercase submission `"j00101999w"` decodes to the identical record. -/
theorem C6_witness :
    albania.decode ((str "J00101999W").map lowerChar) =
      .ok ⟨"albania", 1990, 1, 1, "1990-01-01", "M", true⟩ ∧
    albania.decode ((str "J00101999W").map upperChar) =
      .ok ⟨"albania", 1990, 1, 1, "1990-01-01", "M", true⟩ :=
  C6_case_invariance (str "J00101999W")
    (NidInfo.mk "albania" 1990 1 1 "1990-01-01" "M" true) (by decide)

/-- Modelled from the spec: the Python-facing exception classes re-exported
by `nidx/__init__.py` (the defining `_nidx` core is not among the binding
sources) and the hierarchy §6 requires — each specific error class
specializes the common `NidError` category, which itself specializes the
host language's generic invalid-value category `ValueError`, the category
the test suite catches. -/
inductive PyClass where
  | valueError
  | nidError
  | nidFormatError
  | nidChecksumError
  | nidInvalidDateError
deriving DecidableEq

/-- The superclass chain of each class, the class itself first. -/
def ancestors : PyClass → List PyClass
  | .valueError => [.valueError]
  | .nidError => [.nidError, .valueError]
  | .nidFormatError => [.nidFormatError, .nidError, .valueError]
  | .nidChecksumError => [.nidChecksumError, .nidError, .valueError]
  | .nidInvalidDateError => [.nidInvalidDateError, .nidError, .valueError]

/-- `isinstance`-style test: does class `a` specialize class `b`? -/
def isSubclassOf (a b : PyClass) : Bool := decide (b ∈ ancestors a)

/-- The Python exception class raised for each error kind of the engine. -/
def pyClassOf : NidError → PyClass
  | .formatError => .nidFormatError
  | .checksumError => .nidChecksumError
  | .invalidDateError => .nidInvalidDateError

/-- C9: the three error kinds are pairwise distinct and are raised as three
pairwise distinct exception classes, yet every failure of decode carries a
class specializing the one common category `NidError` — a handler for that
category catches every decode failure. -/
theorem C9_error_taxonomy :
    (NidError.formatError ≠ NidError.checksumError ∧
     NidError.formatError ≠ NidError.invalidDateError ∧
     NidError.checksumError ≠ NidError.invalidDateError) ∧
    (pyClassOf .formatError ≠ pyClassOf .checksumError ∧
     pyClassOf .formatError ≠ pyClassOf .invalidDateError ∧
     pyClassOf .checksumError ≠ pyClassOf .invalidDateError) ∧
    (∀ (code : List Nat) (e : NidError),
      albania.decode code = .error e →
      isSubclassOf (pyClassOf e) .nidError = true) := by
  refine ⟨by decide, by decide, ?_⟩
  intro code e _
  cases e <;> decide

/-- C9 witness: the common-category handler catches the FormatError raised
on the empty string. -/
theorem C9_witness :
    isSubclassOf (pyClassOf .formatError) .nidError = true :=
  C9_error_taxonomy.2.2 (str "") .formatError (by decide)

/-- C10: every decode failure raises an exception whose class specializes
the built-in `ValueError`, while `is_valid` merely returns `false` on that
same input. -/
theorem C10_failures_are_valueerrors (code : List Nat) (e : NidError)
    (h : albania.decode code = .error e) :
    isSubclassOf (pyClassOf e) .valueError = true ∧
    albania.is_valid code = false := by
  constructor
  · cases e <;> decide
  · have hv := albania.validUpper_eq_isOk (code.map upperChar)
    unfold albania.is_valid
    rw [hv]
    unfold albania.decode at h
    rw [h]
    rfl

/-- C10 witness: evaluated on the empty string (FormatError) and on the
mutated-checksum code `"J00101999A"` (ChecksumError). -/
theorem C10_witness :
    (isSubclassOf (pyClassOf .formatError) .valueError = true ∧
     albania.is_valid (str "") = false) ∧
    (isSubclassOf (pyClassOf .checksumError) .valueError = true ∧
     albania.is_valid (str "J00101999A") = false) :=
  ⟨C10_failures_are_valueerrors (str "") .formatError (by decide),
   C10_failures_are_valueerrors (str "J00101999A") .checksumError (by decide)⟩
